import Mathlib

/-!
Shallow embedding of the Black-Scholes accuracy-testing scripts
("Black-Scholes Model Accuracy Test for Nifty50 Options" and the
quantitative-summary script).

Modelling conventions:
* Python strings are modelled as lists of code points (`List ℕ`); the
  source only ever inspects `option_type` through `str.lower()`, which on
  the ASCII range maps 65..90 to 97..122 and fixes everything else.
* The pricing function `black_scholes` works over ℝ (an idealisation of
  IEEE floats for `log`, `sqrt`, `exp` and the normal CDF); the single
  `raise ValueError` in the source is modelled by `Except`.
* Dataframe cell values for the error columns are modelled by `FloatVal`:
  a finite value (as an exact rational, floats being rationals) or the
  IEEE `float('inf')` value that the source stores as its sentinel for a
  zero market price.  A dataframe is a list of rows.
* pandas `Series.mean` / `median` / `std` return NaN exactly when the
  series is empty (resp. has fewer than two entries, for `std` with its
  default `ddof=1`), and every use site in the source immediately tags
  that NaN via `pd.isna` / `.empty` guards; the tagged "not computable"
  outcome is modelled as `none : Option _`.
-/

namespace OptionAccuracy

/-- Python `str.lower` on one ASCII code point. -/
def lowerChar (n : ℕ) : ℕ := if 65 ≤ n ∧ n ≤ 90 then n + 32 else n

/-- Python `str.lower` on a whole string (list of code points). -/
def lowerStr (s : List ℕ) : List ℕ := s.map lowerChar

/-- The string literal `'call'` from the source. -/
def callChars : List ℕ := [99, 97, 108, 108]

/-- The string literal `'put'` from the source. -/
def putChars : List ℕ := [112, 117, 116]

/-- Standard normal cumulative distribution function, the meaning of
`scipy.stats.norm.cdf (·, 0.0, 1.0)` used by the source. -/
noncomputable def Phi (x : ℝ) : ℝ :=
  (∫ t in Set.Iic x, Real.exp (-t ^ 2 / 2)) / Real.sqrt (2 * Real.pi)

/-- `d1 = (np.log(S / K) + (r + 0.5 * sigma ** 2) * T) / (sigma * np.sqrt(T))`
from `black_scholes`. -/
noncomputable def d1 (S K T r sigma : ℝ) : ℝ :=
  (Real.log (S / K) + (r + 0.5 * sigma ^ 2) * T) / (sigma * Real.sqrt T)

/-- `d2 = d1 - sigma * np.sqrt(T)` from `black_scholes`. -/
noncomputable def d2 (S K T r sigma : ℝ) : ℝ :=
  d1 S K T r sigma - sigma * Real.sqrt T

/-- The two exceptions the pricing function can raise:
`ValueError("Invalid option type. Please choose 'call' or 'put'.")`, and
Python's `ZeroDivisionError` from `S / K` when `K == 0` — after the
`float(S)` / `float(K)` conversions, `S / K` is Python float division,
which raises on a zero divisor (unlike the numpy operations in `d1` and
`d2`, which only warn and produce inf/nan). -/
inductive BSError where
  | invalidOptionKind
  | zeroDivision
deriving DecidableEq

/-- The `black_scholes(S, K, T, r, sigma, option_type)` function of the
source, translated branch for branch:
if `T <= 0` it returns the intrinsic value for (lower-cased) `'call'` /
`'put'` and `0.0` for anything else.  Otherwise the source evaluates `d1`
and `d2` before inspecting the kind; the only exception-raising subterm
of that evaluation is the Python float division `S / K`, which raises
`ZeroDivisionError` when `K = 0` (the enclosing `np.log` and the division
by `sigma * np.sqrt(T)` operate on `np.float64` and merely warn), so the
model fails with `zeroDivision` first; then it prices through `d1`, `d2`
and the normal CDF, raising `ValueError` on an unknown type. -/
noncomputable def black_scholes (S K T r sigma : ℝ) (option_type : List ℕ) :
    Except BSError ℝ :=
  if T ≤ 0 then
    if lowerStr option_type = callChars then Except.ok (max 0 (S - K))
    else if lowerStr option_type = putChars then Except.ok (max 0 (K - S))
    else Except.ok 0
  else
    if K = 0 then Except.error BSError.zeroDivision
    else if lowerStr option_type = callChars then
      Except.ok (S * Phi (d1 S K T r sigma) -
        K * Real.exp (-r * T) * Phi (d2 S K T r sigma))
    else if lowerStr option_type = putChars then
      Except.ok (K * Real.exp (-r * T) * Phi (-(d2 S K T r sigma)) -
        S * Phi (-(d1 S K T r sigma)))
    else Except.error BSError.invalidOptionKind

/-- A float value stored in the `Percentage_Error` /
`Absolute_Percentage_Error` columns: a finite value or `float('inf')`. -/
inductive FloatVal where
  | num (x : ℚ)
  | inf
deriving DecidableEq

/-- Whether the value is the `float('inf')` sentinel (the mask
`== float('inf')` used by the source; its negation is `!= float('inf')`). -/
def FloatVal.isInf : FloatVal → Bool
  | .inf => true
  | .num _ => false

/-- Extract the finite value; only used on entries already filtered by
`!= float('inf')`, so the junk value on `inf` is never reached. -/
def FloatVal.getNum : FloatVal → ℚ
  | .num x => x
  | .inf => 0

/-- Python `abs` on such a value (`abs(float('inf')) == float('inf')`). -/
def FloatVal.absVal : FloatVal → FloatVal
  | .num x => .num |x|
  | .inf => .inf

/-- One row of `options_df` as seen by the error/summary code: the
`Option_Type`, `Black_Scholes_Price` and `Option_Close` columns. -/
structure OptionRow where
  Option_Type : List ℕ
  Black_Scholes_Price : ℚ
  Option_Close : ℚ
deriving DecidableEq

/-- `options_df['Pricing_Error'] = options_df['Black_Scholes_Price'] -
options_df['Option_Close']`. -/
def Pricing_Error (row : OptionRow) : ℚ :=
  row.Black_Scholes_Price - row.Option_Close

/-- The `Percentage_Error` column:
`(row['Pricing_Error'] / row['Option_Close']) * 100 if
row['Option_Close'] != 0 else float('inf')`. -/
def Percentage_Error (row : OptionRow) : FloatVal :=
  if row.Option_Close ≠ 0 then
    .num (Pricing_Error row / row.Option_Close * 100)
  else .inf

/-- The `Absolute_Percentage_Error` column:
`options_df['Percentage_Error'].abs()`. -/
def Absolute_Percentage_Error (row : OptionRow) : FloatVal :=
  (Percentage_Error row).absVal

/-- The series `options_df[options_df['Absolute_Percentage_Error'] !=
float('inf')]['Absolute_Percentage_Error']`: mask the rows, then read the
column. -/
def definedAbs (df : List OptionRow) : List ℚ :=
  (df.filter (fun r => !(Absolute_Percentage_Error r).isInf)).map
    (fun r => (Absolute_Percentage_Error r).getNum)

/-- The series `options_df[options_df['Percentage_Error'] !=
float('inf')]['Percentage_Error']`. -/
def definedSigned (df : List OptionRow) : List ℚ :=
  (df.filter (fun r => !(Percentage_Error r).isInf)).map
    (fun r => (Percentage_Error r).getNum)

/-- pandas `Series.mean`, with the NaN-on-empty outcome tagged (the source
guards every mean with `pd.isna` or `.empty`). -/
def meanList (l : List ℚ) : Option ℚ :=
  if l = [] then none else some (l.sum / (l.length : ℚ))

/-- pandas `Series.median`: sort, take the middle element, or the average
of the two middle elements for an even count; NaN (tagged) on empty. -/
def medianList (l : List ℚ) : Option ℚ :=
  if l = [] then none
  else
    let s := l.mergeSort (fun a b => a ≤ b)
    if l.length % 2 = 1 then some (s.getD (l.length / 2) 0)
    else some ((s.getD (l.length / 2 - 1) 0 + s.getD (l.length / 2) 0) / 2)

/-- pandas `Series.std` with its default `ddof=1`: the sample standard
deviation with the `N - 1` denominator, NaN (tagged) when fewer than two
entries. -/
noncomputable def sampleStd (l : List ℚ) : Option ℝ :=
  if l.length < 2 then none
  else
    some (Real.sqrt
      (((((l.map (fun x => (x - l.sum / (l.length : ℚ)) ^ 2)).sum) /
        ((l.length : ℚ) - 1)) : ℚ)))

/-- `processed_rows = len(options_df)`. -/
def processed_rows (df : List OptionRow) : ℕ := df.length

/-- `average_absolute_error = options_df[... != float('inf')]
['Absolute_Percentage_Error'].mean()`. -/
def average_absolute_error (df : List OptionRow) : Option ℚ :=
  meanList (definedAbs df)

/-- `median_absolute_error = options_df[... != float('inf')]
['Absolute_Percentage_Error'].median()`. -/
def median_absolute_error (df : List OptionRow) : Option ℚ :=
  medianList (definedAbs df)

/-- `std_dev_error = options_df[... != float('inf')]
['Percentage_Error'].std()`. -/
noncomputable def std_dev_error (df : List OptionRow) : Option ℝ :=
  sampleStd (definedSigned df)

/-- `mean_error = options_df[... != float('inf')]
['Percentage_Error'].mean()`. -/
def mean_error (df : List OptionRow) : Option ℚ :=
  meanList (definedSigned df)

/-- `call_options_df = options_df[(options_df['Option_Type'].str.lower()
== 'call') & (options_df['Absolute_Percentage_Error'] != float('inf'))]`. -/
def call_options_df (df : List OptionRow) : List OptionRow :=
  df.filter (fun r =>
    decide (lowerStr r.Option_Type = callChars) &&
      !(Absolute_Percentage_Error r).isInf)

/-- `put_options_df = options_df[(options_df['Option_Type'].str.lower()
== 'put') & (options_df['Absolute_Percentage_Error'] != float('inf'))]`. -/
def put_options_df (df : List OptionRow) : List OptionRow :=
  df.filter (fun r =>
    decide (lowerStr r.Option_Type = putChars) &&
      !(Absolute_Percentage_Error r).isInf)

/-- `average_call_error = call_options_df['Absolute_Percentage_Error']
.mean()`, guarded by `if not call_options_df.empty`. -/
def average_call_error (df : List OptionRow) : Option ℚ :=
  meanList ((call_options_df df).map (fun r => (Absolute_Percentage_Error r).getNum))

/-- `average_put_error = put_options_df['Absolute_Percentage_Error']
.mean()`, guarded by `if not put_options_df.empty`. -/
def average_put_error (df : List OptionRow) : Option ℚ :=
  meanList ((put_options_df df).map (fun r => (Absolute_Percentage_Error r).getNum))

/-- Lower-casing the `Option_Type` field of a row, leaving the numeric
columns unchanged. -/
def lowerRow (r : OptionRow) : OptionRow :=
  { r with Option_Type := lowerStr r.Option_Type }

/-- ASCII lower-casing is idempotent. -/
theorem lowerChar_idem (n : ℕ) : lowerChar (lowerChar n) = lowerChar n := by
  simp only [lowerChar]
  split_ifs <;> omega

/-- Python `str.lower` is idempotent. -/
theorem lowerStr_idem (s : List ℕ) : lowerStr (lowerStr s) = lowerStr s := by
  simp only [lowerStr, List.map_map]
  congr 1
  funext n
  exact lowerChar_idem n

/-- The normal CDF satisfies `Phi x + Phi (-x) = 1` (symmetry of the
standard Gaussian). -/
theorem Phi_add_Phi_neg (x : ℝ) : Phi x + Phi (-x) = 1 := by
  have hfun : (fun t : ℝ => Real.exp (-t ^ 2 / 2)) =
      fun t => Real.exp (-(1 / 2) * t ^ 2) := by
    funext t; ring_nf
  have hint : MeasureTheory.Integrable (fun t : ℝ => Real.exp (-t ^ 2 / 2)) := by
    rw [hfun]; exact integrable_exp_neg_mul_sq (by norm_num)
  have hJ := integral_comp_neg_Ioi x (fun t => Real.exp (-t ^ 2 / 2))
  simp only [neg_sq] at hJ
  have hsum : (∫ t in Set.Iic x, Real.exp (-t ^ 2 / 2))
      + (∫ t in Set.Ioi x, Real.exp (-t ^ 2 / 2))
      = ∫ t : ℝ, Real.exp (-t ^ 2 / 2) :=
    intervalIntegral.integral_Iic_add_Ioi hint.integrableOn hint.integrableOn
  have htot : (∫ t : ℝ, Real.exp (-t ^ 2 / 2)) = Real.sqrt (2 * Real.pi) := by
    rw [hfun, integral_gaussian]
    congr 1
    ring
  have hpos : Real.sqrt (2 * Real.pi) ≠ 0 := by positivity
  unfold Phi
  rw [div_add_div_same, ← hJ, hsum, htot, div_self hpos]

/-- The percentage error is the infinity sentinel exactly on rows whose
market price is zero. -/
theorem Percentage_Error_isInf (r : OptionRow) :
    (Percentage_Error r).isInf = decide (r.Option_Close = 0) := by
  unfold Percentage_Error
  by_cases h : r.Option_Close = 0
  · simp [h, FloatVal.isInf]
  · simp [h, FloatVal.isInf]

/-- `abs` preserves being the infinity sentinel. -/
theorem absVal_isInf (v : FloatVal) : v.absVal.isInf = v.isInf := by
  cases v <;> rfl

/-- The absolute percentage error is the infinity sentinel exactly on rows
whose market price is zero. -/
theorem Absolute_Percentage_Error_isInf (r : OptionRow) :
    (Absolute_Percentage_Error r).isInf = decide (r.Option_Close = 0) := by
  rw [Absolute_Percentage_Error, absVal_isInf, Percentage_Error_isInf]

/-- Splitting a list by a Boolean predicate preserves the total length. -/
theorem length_filter_not_add {α : Type} (p : α → Bool) (l : List α) :
    (l.filter p).length + (l.filter (fun a => !(p a))).length = l.length := by
  induction l with
  | nil => rfl
  | cons a t ih =>
    cases hpa : p a
    · simp [List.filter_cons, hpa]; omega
    · simp [List.filter_cons, hpa]; omega

/-- The signed defined subset has exactly the rows with a nonzero market
price. -/
theorem definedSigned_length (df : List OptionRow) :
    (definedSigned df).length =
      df.length - (df.filter (fun r => decide (r.Option_Close = 0))).length := by
  unfold definedSigned
  rw [List.length_map]
  have hsplit := length_filter_not_add (fun r => decide (r.Option_Close = 0)) df
  have hcongr : df.filter (fun r => !(Percentage_Error r).isInf) =
      df.filter (fun r => !(decide (r.Option_Close = 0))) :=
    List.filter_congr (fun r _ => by rw [Percentage_Error_isInf])
  rw [hcongr]
  omega

/-- The absolute defined subset has exactly the rows with a nonzero market
price. -/
theorem definedAbs_length (df : List OptionRow) :
    (definedAbs df).length =
      df.length - (df.filter (fun r => decide (r.Option_Close = 0))).length := by
  unfold definedAbs
  rw [List.length_map]
  have hsplit := length_filter_not_add (fun r => decide (r.Option_Close = 0)) df
  have hcongr : df.filter (fun r => !(Absolute_Percentage_Error r).isInf) =
      df.filter (fun r => !(decide (r.Option_Close = 0))) :=
    List.filter_congr (fun r _ => by rw [Absolute_Percentage_Error_isInf])
  rw [hcongr]
  omega

/-- Lower-casing the kind of a row leaves its error columns unchanged. -/
theorem Absolute_Percentage_Error_lowerRow (r : OptionRow) :
    Absolute_Percentage_Error (lowerRow r) = Absolute_Percentage_Error r := rfl

/-- Claim C1 fails as stated: with `time_to_expiry = 0` (hence `T ≤ 0`)
and the unknown kind `"x"` (code point 120), the pricing function does not
raise the invalid-option-kind error but silently returns the price `0.0`. -/
theorem c1_counterexample :
    black_scholes 1 2 0 0 0 [120] = Except.ok 0 := by
  unfold black_scholes
  rw [if_pos (le_refl (0 : ℝ)), if_neg (by decide), if_neg (by decide)]

/-- Claim C1 (amended): for every kind whose lowercased form is neither
`"call"` nor `"put"`, the pricing function raises the invalid-option-kind
error when `time_to_expiry > 0` and `strike ≠ 0`; when `time_to_expiry > 0`
and `strike = 0` it instead raises `ZeroDivisionError` from the Python
float division `spot / strike`, evaluated before the kind check; and when
`time_to_expiry ≤ 0` it silently returns the price `0.0` instead of
raising. -/
theorem c1_amended (S K T r sigma : ℝ) (kind : List ℕ)
    (hc : lowerStr kind ≠ callChars) (hp : lowerStr kind ≠ putChars) :
    (0 < T → K ≠ 0 →
      black_scholes S K T r sigma kind = Except.error BSError.invalidOptionKind) ∧
    (0 < T → K = 0 →
      black_scholes S K T r sigma kind = Except.error BSError.zeroDivision) ∧
    (T ≤ 0 → black_scholes S K T r sigma kind = Except.ok 0) := by
  refine ⟨?_, ?_, ?_⟩
  · intro hT hK
    unfold black_scholes
    rw [if_neg (not_le.mpr hT), if_neg hK, if_neg hc, if_neg hp]
  · intro hT hK
    unfold black_scholes
    rw [if_neg (not_le.mpr hT), if_pos hK]
  · intro hT
    unfold black_scholes
    rw [if_pos hT, if_neg hc, if_neg hp]

/-- Witness for the amended claim C1 at the concrete kind `"x"`, both for
a nonzero strike (invalid-option-kind) and a zero strike (division
error). -/
theorem c1_witness :
    lowerStr [120] ≠ callChars ∧ lowerStr [120] ≠ putChars ∧
      black_scholes 1 1 1 0 1 [120] = Except.error BSError.invalidOptionKind ∧
      black_scholes 1 0 1 0 1 [120] = Except.error BSError.zeroDivision :=
  ⟨by decide, by decide,
    (c1_amended 1 1 1 0 1 [120] (by decide) (by decide)).1 (by norm_num)
      (by norm_num),
    (c1_amended 1 0 1 0 1 [120] (by decide) (by decide)).2.1 (by norm_num) rfl⟩

/-- Claim C2 fails as stated: with `volatility = 0` and
`time_to_expiry = 1 > 0` the pricing function does not raise any error; it
returns a price (computed through the `d1`/`d2` formula). -/
theorem c2_counterexample :
    (black_scholes 100 100 1 0 0 callChars).isOk = true := by
  unfold black_scholes
  rw [if_neg (by norm_num : ¬(1 : ℝ) ≤ 0), if_neg (by norm_num : ¬(100 : ℝ) = 0),
    if_pos (by decide : lowerStr callChars = callChars)]
  rfl

/-- Claim C2 (amended): the pricing function has no degenerate-volatility
check: for every `spot > 0`, `strike > 0`, rate and `time_to_expiry > 0`,
calling it with `volatility = 0` and kind `"call"` or `"put"` raises no
error and returns a value computed from the `d1`/`d2` formula (under IEEE
arithmetic the zero division there yields `±inf` or NaN, which propagates
through the normal CDF instead of being signalled). -/
theorem c2_amended (S K T r : ℝ) (hS : 0 < S) (hK : 0 < K) (hT : 0 < T) :
    (black_scholes S K T r 0 callChars).isOk = true ∧
    (black_scholes S K T r 0 putChars).isOk = true := by
  constructor
  · unfold black_scholes
    rw [if_neg (not_le.mpr hT), if_neg hK.ne',
      if_pos (by decide : lowerStr callChars = callChars)]
    rfl
  · unfold black_scholes
    rw [if_neg (not_le.mpr hT), if_neg hK.ne', if_neg (by decide),
      if_pos (by decide : lowerStr putChars = putChars)]
    rfl

/-- Witness for the amended claim C2 at concrete inputs. -/
theorem c2_witness :
    (0 : ℝ) < 2 ∧ (0 : ℝ) < 3 ∧ (0 : ℝ) < 1 ∧
      (black_scholes 2 3 1 0 0 callChars).isOk = true :=
  ⟨by norm_num, by norm_num, by norm_num,
    (c2_amended 2 3 1 0 (by norm_num) (by norm_num) (by norm_num)).1⟩

/-- Claim C3 fails as stated: for `theoretical_price = 5` and
`observed_price = 0` the stored percentage error is the IEEE infinity
value `float('inf')`, while the claim requires a sentinel that is "not
infinity". -/
theorem c3_counterexample :
    Percentage_Error ⟨callChars, 5, 0⟩ = FloatVal.inf := by decide

/-- Claim C3 (amended): for `observed_price = 0` the percentage error is
the `float('inf')` sentinel — which is distinct from every finite value,
though it is infinity rather than a dedicated undefined marker — and for
`observed_price ≠ 0` it is `signed_error / observed_price * 100`. -/
theorem c3_amended (r : OptionRow) :
    (r.Option_Close = 0 → Percentage_Error r = FloatVal.inf) ∧
    (r.Option_Close ≠ 0 →
      Percentage_Error r =
        FloatVal.num (Pricing_Error r / r.Option_Close * 100)) ∧
    (∀ x : ℚ, FloatVal.inf ≠ FloatVal.num x) := by
  refine ⟨?_, ?_, fun x h => by cases h⟩
  · intro h
    simp [Percentage_Error, h]
  · intro h
    simp [Percentage_Error, h]

/-- Witness for the amended claim C3 at concrete rows. -/
theorem c3_witness :
    Percentage_Error ⟨putChars, 7, 0⟩ = FloatVal.inf ∧
      Percentage_Error ⟨putChars, 7, 2⟩ =
        FloatVal.num (Pricing_Error ⟨putChars, 7, 2⟩ / 2 * 100) :=
  ⟨(c3_amended ⟨putChars, 7, 0⟩).1 rfl,
    (c3_amended ⟨putChars, 7, 2⟩).2.1 (by norm_num)⟩

/-- Claim C4: for every `time_to_expiry ≤ 0` the pricing function returns
exactly the intrinsic value, `max 0 (spot - strike)` for a call and
`max 0 (strike - spot)` for a put, without entering the formula branch. -/
theorem c4_intrinsic (S K T r sigma : ℝ) (kind : List ℕ) (hT : T ≤ 0) :
    (lowerStr kind = callChars →
      black_scholes S K T r sigma kind = Except.ok (max 0 (S - K))) ∧
    (lowerStr kind = putChars →
      black_scholes S K T r sigma kind = Except.ok (max 0 (K - S))) := by
  constructor
  · intro h
    unfold black_scholes
    rw [if_pos hT, if_pos h]
  · intro h
    unfold black_scholes
    rw [if_pos hT, if_neg (by rw [h]; decide), if_pos h]

/-- Witness for claim C4 at concrete inputs. -/
theorem c4_witness :
    (0 : ℝ) ≤ 0 ∧ lowerStr callChars = callChars ∧
      black_scholes 5 3 0 0 1 callChars = Except.ok (max 0 (5 - 3)) :=
  ⟨le_refl 0, by decide,
    (c4_intrinsic 5 3 0 0 1 callChars (le_refl 0)).1 (by decide)⟩

/-- Claim C5: for `spot, strike, volatility, time_to_expiry > 0` the
pricing function computes `d1` and `d2` by the standard formulas and
returns `S·Φ(d1) − K·e^(−rT)·Φ(d2)` for a call and
`K·e^(−rT)·Φ(−d2) − S·Φ(−d1)` for a put, with `Φ` the standard normal
CDF. -/
theorem c5_formula (S K T r sigma : ℝ) (hS : 0 < S) (hK : 0 < K)
    (hsigma : 0 < sigma) (hT : 0 < T) :
    d1 S K T r sigma =
      (Real.log (S / K) + (r + 0.5 * sigma ^ 2) * T) / (sigma * Real.sqrt T) ∧
    d2 S K T r sigma = d1 S K T r sigma - sigma * Real.sqrt T ∧
    black_scholes S K T r sigma callChars =
      Except.ok (S * Phi (d1 S K T r sigma) -
        K * Real.exp (-r * T) * Phi (d2 S K T r sigma)) ∧
    black_scholes S K T r sigma putChars =
      Except.ok (K * Real.exp (-r * T) * Phi (-(d2 S K T r sigma)) -
        S * Phi (-(d1 S K T r sigma))) := by
  refine ⟨rfl, rfl, ?_, ?_⟩
  · unfold black_scholes
    rw [if_neg (not_le.mpr hT), if_neg hK.ne',
      if_pos (by decide : lowerStr callChars = callChars)]
  · unfold black_scholes
    rw [if_neg (not_le.mpr hT), if_neg hK.ne', if_neg (by decide),
      if_pos (by decide : lowerStr putChars = putChars)]

/-- Witness for claim C5 at concrete inputs. -/
theorem c5_witness :
    (0 : ℝ) < 100 ∧ (0 : ℝ) < 90 ∧ (0 : ℝ) < 2 ∧ (0 : ℝ) < 1 ∧
      black_scholes 100 90 1 (1 / 20) 2 callChars =
        Except.ok (100 * Phi (d1 100 90 1 (1 / 20) 2) -
          90 * Real.exp (-(1 / 20) * 1) * Phi (d2 100 90 1 (1 / 20) 2)) :=
  ⟨by norm_num, by norm_num, by norm_num, by norm_num,
    (c5_formula 100 90 1 (1 / 20) 2 (by norm_num) (by norm_num) (by norm_num)
      (by norm_num)).2.2.1⟩

/-- Claim C6: over any input of `N` records of which `K` have a zero
market price, the summary keeps `count_total = N`, while the mean, median
and standard deviation are each computed over exactly the `N − K` rows
whose percentage error is defined (not the infinity sentinel). -/
theorem c6_counts (df : List OptionRow) :
    processed_rows df = df.length ∧
    (definedAbs df).length =
      df.length - (df.filter (fun r => decide (r.Option_Close = 0))).length ∧
    (definedSigned df).length =
      df.length - (df.filter (fun r => decide (r.Option_Close = 0))).length ∧
    average_absolute_error df = meanList (definedAbs df) ∧
    median_absolute_error df = medianList (definedAbs df) ∧
    std_dev_error df = sampleStd (definedSigned df) ∧
    mean_error df = meanList (definedSigned df) :=
  ⟨rfl, definedAbs_length df, definedSigned_length df, rfl, rfl, rfl, rfl⟩

/-- Claim C7: whenever the defined subset is empty (in particular for the
empty input, whose `count_total` is `0`), every summary statistic —
overall mean, median, standard deviation, mean error and the per-kind
means — is the tagged undefined outcome, never a number. -/
theorem c7_empty_defined (df : List OptionRow)
    (h : definedSigned df = []) :
    average_absolute_error df = none ∧ median_absolute_error df = none ∧
    std_dev_error df = none ∧ mean_error df = none ∧
    average_call_error df = none ∧ average_put_error df = none ∧
    (df = [] → processed_rows df = 0) := by
  have hfil : df.filter (fun r => !(Percentage_Error r).isInf) = [] := by
    unfold definedSigned at h
    exact List.map_eq_nil_iff.mp h
  have hall : ∀ r ∈ df, (Percentage_Error r).isInf = true := by
    intro r hr
    have h2 := List.filter_eq_nil_iff.mp hfil r hr
    simpa using h2
  have habs : ∀ r ∈ df, (Absolute_Percentage_Error r).isInf = true := by
    intro r hr
    rw [Absolute_Percentage_Error, absVal_isInf]
    exact hall r hr
  have hfil2 : df.filter (fun r => !(Absolute_Percentage_Error r).isInf) = [] :=
    List.filter_eq_nil_iff.mpr (fun r hr => by simp [habs r hr])
  have hcall : call_options_df df = [] := by
    unfold call_options_df
    exact List.filter_eq_nil_iff.mpr (fun r hr => by simp [habs r hr])
  have hput : put_options_df df = [] := by
    unfold put_options_df
    exact List.filter_eq_nil_iff.mpr (fun r hr => by simp [habs r hr])
  refine ⟨?_, ?_, ?_, ?_, ?_, ?_, fun hdf => by simp [processed_rows, hdf]⟩
  · unfold average_absolute_error definedAbs
    rw [hfil2]
    rfl
  · unfold median_absolute_error definedAbs
    rw [hfil2]
    rfl
  · unfold std_dev_error
    rw [h]
    rfl
  · unfold mean_error
    rw [h]
    rfl
  · unfold average_call_error
    rw [hcall]
    rfl
  · unfold average_put_error
    rw [hput]
    rfl

/-- Witness for claim C7: a single record with zero market price has an
empty defined subset and undefined statistics. -/
theorem c7_witness :
    definedSigned [⟨callChars, 5, 0⟩] = [] ∧
      average_absolute_error [⟨callChars, 5, 0⟩] = none ∧
      std_dev_error [⟨callChars, 5, 0⟩] = none :=
  ⟨by decide, (c7_empty_defined _ (by decide)).1,
    (c7_empty_defined _ (by decide)).2.2.1⟩

/-- Claim C8: for `spot, strike, volatility, time_to_expiry > 0` the call
and put prices on the same inputs satisfy put-call parity:
`call − put = spot − strike·e^(−rate·T)` (exact in the real-number model,
hence within floating tolerance in the implementation). -/
theorem c8_put_call_parity (S K T r sigma : ℝ) (hS : 0 < S) (hK : 0 < K)
    (hsigma : 0 < sigma) (hT : 0 < T) (c p : ℝ)
    (hc : black_scholes S K T r sigma callChars = Except.ok c)
    (hp : black_scholes S K T r sigma putChars = Except.ok p) :
    c - p = S - K * Real.exp (-r * T) := by
  have hcall : black_scholes S K T r sigma callChars =
      Except.ok (S * Phi (d1 S K T r sigma) -
        K * Real.exp (-r * T) * Phi (d2 S K T r sigma)) := by
    unfold black_scholes
    rw [if_neg (not_le.mpr hT), if_neg hK.ne',
      if_pos (by decide : lowerStr callChars = callChars)]
  have hputf : black_scholes S K T r sigma putChars =
      Except.ok (K * Real.exp (-r * T) * Phi (-(d2 S K T r sigma)) -
        S * Phi (-(d1 S K T r sigma))) := by
    unfold black_scholes
    rw [if_neg (not_le.mpr hT), if_neg hK.ne', if_neg (by decide),
      if_pos (by decide : lowerStr putChars = putChars)]
  rw [hcall] at hc
  rw [hputf] at hp
  injection hc with hc
  injection hp with hp
  have e1 : Phi (-(d1 S K T r sigma)) = 1 - Phi (d1 S K T r sigma) := by
    linarith [Phi_add_Phi_neg (d1 S K T r sigma)]
  have e2 : Phi (-(d2 S K T r sigma)) = 1 - Phi (d2 S K T r sigma) := by
    linarith [Phi_add_Phi_neg (d2 S K T r sigma)]
  rw [← hc, ← hp, e1, e2]
  ring

/-- Witness for claim C8 at concrete inputs. -/
theorem c8_witness :
    (0 : ℝ) < 100 ∧ (0 : ℝ) < 80 ∧ (0 : ℝ) < 1 ∧
      (100 * Phi (d1 100 80 1 0 1) -
          80 * Real.exp (-0 * 1) * Phi (d2 100 80 1 0 1)) -
        (80 * Real.exp (-0 * 1) * Phi (-(d2 100 80 1 0 1)) -
          100 * Phi (-(d1 100 80 1 0 1))) =
        100 - 80 * Real.exp (-0 * 1) := by
  refine ⟨by norm_num, by norm_num, by norm_num, ?_⟩
  refine c8_put_call_parity 100 80 1 0 1 (by norm_num) (by norm_num)
    (by norm_num) (by norm_num) _ _ ?_ ?_
  · unfold black_scholes
    rw [if_neg (by norm_num : ¬(1 : ℝ) ≤ 0), if_neg (by norm_num : ¬(80 : ℝ) = 0),
      if_pos (by decide : lowerStr callChars = callChars)]
  · unfold black_scholes
    rw [if_neg (by norm_num : ¬(1 : ℝ) ≤ 0), if_neg (by norm_num : ¬(80 : ℝ) = 0),
      if_neg (by decide),
      if_pos (by decide : lowerStr putChars = putChars)]

/-- Claim C9: with at least two defined samples, the reported standard
deviation is the sample standard deviation of the defined signed
percentage errors with the `N − 1` denominator (pandas `std`, default
`ddof = 1`). -/
theorem c9_sample_std (df : List OptionRow)
    (h2 : 2 ≤ (definedSigned df).length) :
    std_dev_error df =
      some (Real.sqrt
        (((((definedSigned df).map
            (fun x => (x - (definedSigned df).sum /
              ((definedSigned df).length : ℚ)) ^ 2)).sum /
          (((definedSigned df).length : ℚ) - 1)) : ℚ))) := by
  unfold std_dev_error sampleStd
  rw [if_neg (by omega)]

/-- Witness for claim C9 on a two-row dataframe. -/
theorem c9_witness :
    2 ≤ (definedSigned [⟨callChars, 5, 4⟩, ⟨putChars, 3, 2⟩]).length ∧
      std_dev_error [⟨callChars, 5, 4⟩, ⟨putChars, 3, 2⟩] =
        some (Real.sqrt
          (((((definedSigned [⟨callChars, 5, 4⟩, ⟨putChars, 3, 2⟩]).map
              (fun x => (x - (definedSigned [⟨callChars, 5, 4⟩, ⟨putChars, 3, 2⟩]).sum /
                ((definedSigned [⟨callChars, 5, 4⟩, ⟨putChars, 3, 2⟩]).length : ℚ)) ^ 2)).sum /
            (((definedSigned [⟨callChars, 5, 4⟩, ⟨putChars, 3, 2⟩]).length : ℚ) - 1)) : ℚ))) :=
  ⟨by decide, c9_sample_std [⟨callChars, 5, 4⟩, ⟨putChars, 3, 2⟩] (by decide)⟩

/-- Claim C10: option-kind matching is case-insensitive throughout — the
pricing function returns the same result (price or error) for a kind and
for its lowercased form, and the per-kind selections used for the
per-kind error means commute with lower-casing the kind column. -/
theorem c10_case_insensitive :
    (∀ (S K T r sigma : ℝ) (kind : List ℕ),
      black_scholes S K T r sigma kind =
        black_scholes S K T r sigma (lowerStr kind)) ∧
    (∀ df : List OptionRow,
      call_options_df (df.map lowerRow) = (call_options_df df).map lowerRow) ∧
    (∀ df : List OptionRow,
      put_options_df (df.map lowerRow) = (put_options_df df).map lowerRow) := by
  refine ⟨?_, ?_, ?_⟩
  · intro S K T r sigma kind
    unfold black_scholes
    rw [lowerStr_idem]
  · intro df
    unfold call_options_df
    rw [List.filter_map]
    have hpred : ((fun r => decide (lowerStr r.Option_Type = callChars) &&
        !(Absolute_Percentage_Error r).isInf) ∘ lowerRow) =
        (fun r => decide (lowerStr r.Option_Type = callChars) &&
          !(Absolute_Percentage_Error r).isInf) := by
      funext r
      show (decide (lowerStr (lowerStr r.Option_Type) = callChars) &&
        !(Absolute_Percentage_Error (lowerRow r)).isInf) = _
      rw [lowerStr_idem, Absolute_Percentage_Error_lowerRow]
    rw [hpred]
  · intro df
    unfold put_options_df
    rw [List.filter_map]
    have hpred : ((fun r => decide (lowerStr r.Option_Type = putChars) &&
        !(Absolute_Percentage_Error r).isInf) ∘ lowerRow) =
        (fun r => decide (lowerStr r.Option_Type = putChars) &&
          !(Absolute_Percentage_Error r).isInf) := by
      funext r
      show (decide (lowerStr (lowerStr r.Option_Type) = putChars) &&
        !(Absolute_Percentage_Error (lowerRow r)).isInf) = _
      rw [lowerStr_idem, Absolute_Percentage_Error_lowerRow]
    rw [hpred]

end OptionAccuracy
